import Mathlib

/-!
Verification development for the YewChat client (src/components/chat.rs).

The embedding models:
- the wire structs `WebSocketMessage`, `MsgTypes`, `MessageData` with their
  serde-derived JSON codecs (over an explicit JSON document tree `Json`,
  plus a small JSON text parser standing for `serde_json::from_str`);
- the session state `ChatState` (the `users`/`messages` fields of the `Chat`
  component; UI handles such as `chat_input`, `wss`, `_producer` carry no
  protocol state and are omitted);
- `update` for `Msg::HandleMsg` as `update_handleMsg`, where a Rust panic
  (`.unwrap()` on an `Err`/`None`) is modelled as `none`;
- the outbound envelope construction of `Msg::SubmitMessage`;
- the sender lookup of `view` with its `&self.users[0]` fallback, where the
  out-of-bounds panic on an empty roster is modelled as `none`.
-/

namespace YewChat

/-- A JSON document. Numbers are modelled as integers, which suffices for this
protocol (no numeric field is ever read by the client). -/
inductive Json where
  | null : Json
  | bool (b : Bool) : Json
  | num (n : Int) : Json
  | str (s : String) : Json
  | arr (elems : List Json) : Json
  | obj (fields : List (String × Json)) : Json
deriving Repr, Inhabited

/-- Skip JSON whitespace. -/
def skipWs : List Char → List Char
  | c :: cs => if c = ' ' ∨ c = '\n' ∨ c = '\t' ∨ c = '\r' then skipWs cs else c :: cs
  | [] => []

/-- Translate a JSON string escape character. The escapes used by this
protocol are covered; `\uXXXX` and the rare `\b`/`\f` are not modelled. -/
def escChar : Char → Option Char
  | '\"' => some '\"'
  | '\\' => some '\\'
  | '/' => some '/'
  | 'n' => some '\n'
  | 't' => some '\t'
  | 'r' => some '\r'
  | _ => none

/-- Parse the body of a JSON string after the opening quote, up to and
including the closing quote; returns the decoded characters and the rest. -/
def parseStrBody : List Char → Option (List Char × List Char)
  | [] => none
  | '\"' :: cs => some ([], cs)
  | '\\' :: cs =>
    match cs with
    | [] => none
    | e :: cs' =>
      match escChar e with
      | none => none
      | some c =>
        match parseStrBody cs' with
        | none => none
        | some (s, rest) => some (c :: s, rest)
  | c :: cs =>
    match parseStrBody cs with
    | none => none
    | some (s, rest) => some (c :: s, rest)

/-- Accumulate decimal digits. -/
def parseDigitsAux (acc : Nat) : List Char → Nat × List Char
  | c :: cs =>
    if c.isDigit then parseDigitsAux (acc * 10 + (c.toNat - 48)) cs else (acc, c :: cs)
  | [] => (acc, [])

/-- Parse a nonempty run of decimal digits. -/
def parseDigits : List Char → Option (Nat × List Char)
  | c :: cs => if c.isDigit then some (parseDigitsAux (c.toNat - 48) cs) else none
  | [] => none

mutual

/-- Parse one JSON value; `fuel` bounds the recursion depth. -/
def parseVal : Nat → List Char → Option (Json × List Char)
  | 0, _ => none
  | fuel + 1, cs =>
    match skipWs cs with
    | 'n' :: 'u' :: 'l' :: 'l' :: rest => some (Json.null, rest)
    | 't' :: 'r' :: 'u' :: 'e' :: rest => some (Json.bool true, rest)
    | 'f' :: 'a' :: 'l' :: 's' :: 'e' :: rest => some (Json.bool false, rest)
    | '\"' :: rest =>
      match parseStrBody rest with
      | none => none
      | some (s, rest') => some (Json.str (String.mk s), rest')
    | '[' :: rest =>
      match skipWs rest with
      | ']' :: rest' => some (Json.arr [], rest')
      | rest' => parseArrItems fuel rest'
    | '\x7b' :: rest =>
      match skipWs rest with
      | '\x7d' :: rest' => some (Json.obj [], rest')
      | rest' => parseObjItems fuel rest'
    | '-' :: rest =>
      match parseDigits rest with
      | none => none
      | some (n, rest') => some (Json.num (-(n : Int)), rest')
    | c :: rest =>
      match parseDigits (c :: rest) with
      | none => none
      | some (n, rest') => some (Json.num (n : Int), rest')
    | [] => none

/-- Parse the items of a nonempty JSON array, including the closing bracket. -/
def parseArrItems : Nat → List Char → Option (Json × List Char)
  | 0, _ => none
  | fuel + 1, cs =>
    match parseVal fuel cs with
    | none => none
    | some (v, rest) =>
      match skipWs rest with
      | ',' :: rest' =>
        match parseArrItems fuel rest' with
        | some (Json.arr vs, rest'') => some (Json.arr (v :: vs), rest'')
        | _ => none
      | ']' :: rest' => some (Json.arr [v], rest')
      | _ => none

/-- Parse the members of a nonempty JSON object, including the closing brace. -/
def parseObjItems : Nat → List Char → Option (Json × List Char)
  | 0, _ => none
  | fuel + 1, cs =>
    match skipWs cs with
    | '\"' :: rest =>
      match parseStrBody rest with
      | none => none
      | some (k, rest1) =>
        match skipWs rest1 with
        | ':' :: rest2 =>
          match parseVal fuel rest2 with
          | none => none
          | some (v, rest3) =>
            match skipWs rest3 with
            | ',' :: rest4 =>
              match parseObjItems fuel rest4 with
              | some (Json.obj fs, rest5) => some (Json.obj ((String.mk k, v) :: fs), rest5)
              | _ => none
            | '\x7d' :: rest4 => some (Json.obj [(String.mk k, v)], rest4)
            | _ => none
        | _ => none
    | _ => none

end

/-- Parse a complete JSON document from text; the whole input must be consumed
up to trailing whitespace. Models the parsing stage of `serde_json::from_str`. -/
def parseJson (s : String) : Option Json :=
  match parseVal (s.length + 2) s.data with
  | some (v, rest) => if skipWs rest = [] then some v else none
  | none => none

/-- Error taxonomy of the decode pipeline: `malformed` when the text is not
parseable JSON, `schemaMismatch` when the JSON does not match the expected
struct shape. In the source both arise as `serde_json::Error` from
`serde_json::from_str`. -/
inductive DecodeError where
  | malformed : DecodeError
  | schemaMismatch : DecodeError
deriving Repr, DecidableEq

/-- Source: `enum MsgTypes { Users, Register, Message }` with
`#[serde(rename_all = "lowercase")]`. -/
inductive MsgTypes where
  | Users : MsgTypes
  | Register : MsgTypes
  | Message : MsgTypes
deriving Repr, DecidableEq

/-- Source: `struct MessageData { from: String, message: String }`, the nested
payload carried inside a `message` envelope's `data` field. -/
structure MessageData where
  «from» : String
  message : String
deriving Repr, DecidableEq

/-- Source: `struct WebSocketMessage` with `#[serde(rename_all = "camelCase")]`:
fields `message_type`, `data_array: Option<Vec<String>>`, `data: Option<String>`. -/
structure WebSocketMessage where
  message_type : MsgTypes
  data_array : Option (List String)
  data : Option String
deriving Repr, DecidableEq

/-- Serde decoding of `MsgTypes` from a JSON value: exactly the lowercase
variant names, case-sensitively. -/
def decodeMsgTypes : Json → Except DecodeError MsgTypes
  | Json.str s =>
    if s = "users" then Except.ok MsgTypes.Users
    else if s = "register" then Except.ok MsgTypes.Register
    else if s = "message" then Except.ok MsgTypes.Message
    else Except.error DecodeError.schemaMismatch
  | _ => Except.error DecodeError.schemaMismatch

/-- Serde encoding of `MsgTypes`: the lowercase variant name. -/
def encodeMsgTypes : MsgTypes → Json
  | MsgTypes.Users => Json.str ("users")
  | MsgTypes.Register => Json.str ("register")
  | MsgTypes.Message => Json.str ("message")

/-- Decode a JSON array's elements as strings (serde `Vec<String>`). -/
def decodeStringList : List Json → Except DecodeError (List String)
  | [] => Except.ok []
  | Json.str s :: rest =>
    match decodeStringList rest with
    | Except.ok l => Except.ok (s :: l)
    | Except.error e => Except.error e
  | _ :: _ => Except.error DecodeError.schemaMismatch

/-- Serde decoding of an `Option<Vec<String>>` field: an absent field or an
explicit `null` is `None`; an array of strings is `Some`; anything else is a
schema error. -/
def decodeOptStringList : Option Json → Except DecodeError (Option (List String))
  | none => Except.ok none
  | some Json.null => Except.ok none
  | some (Json.arr elems) =>
    match decodeStringList elems with
    | Except.ok l => Except.ok (some l)
    | Except.error e => Except.error e
  | some _ => Except.error DecodeError.schemaMismatch

/-- Serde decoding of an `Option<String>` field: absent or `null` is `None`;
a string is `Some`; anything else is a schema error. -/
def decodeOptString : Option Json → Except DecodeError (Option String)
  | none => Except.ok none
  | some Json.null => Except.ok none
  | some (Json.str s) => Except.ok (some s)
  | some _ => Except.error DecodeError.schemaMismatch

/-- Serde decoding of `WebSocketMessage` from a JSON value: an object whose
`messageType` field is required, with optional `dataArray` and `data`;
unknown fields are ignored (serde default). -/
def decodeWebSocketMessage (j : Json) : Except DecodeError WebSocketMessage :=
  match j with
  | Json.obj fields =>
    match fields.lookup ("messageType") with
    | none => Except.error DecodeError.schemaMismatch
    | some tj =>
      match decodeMsgTypes tj with
      | Except.error e => Except.error e
      | Except.ok t =>
        match decodeOptStringList (fields.lookup ("dataArray")) with
        | Except.error e => Except.error e
        | Except.ok da =>
          match decodeOptString (fields.lookup ("data")) with
          | Except.error e => Except.error e
          | Except.ok d =>
            Except.ok { message_type := t, data_array := da, data := d }
  | _ => Except.error DecodeError.schemaMismatch

/-- Serde encoding of `WebSocketMessage` to a JSON value, fields in
declaration order; `None` serializes as `null` (serde_json default). -/
def encodeWebSocketMessage (m : WebSocketMessage) : Json :=
  Json.obj
    [(("messageType"), encodeMsgTypes m.message_type),
     (("dataArray"),
       match m.data_array with
       | none => Json.null
       | some l => Json.arr (l.map Json.str)),
     (("data"),
       match m.data with
       | none => Json.null
       | some s => Json.str s)]

/-- Serde decoding of `MessageData` from a JSON value: an object with required
string fields `from` and `message`; unknown fields are ignored. -/
def decodeMessageData : Json → Except DecodeError MessageData
  | Json.obj fields =>
    match fields.lookup ("from") with
    | some (Json.str f) =>
      match fields.lookup ("message") with
      | some (Json.str m) => Except.ok { «from» := f, message := m }
      | some _ => Except.error DecodeError.schemaMismatch
      | none => Except.error DecodeError.schemaMismatch
    | some _ => Except.error DecodeError.schemaMismatch
    | none => Except.error DecodeError.schemaMismatch
  | _ => Except.error DecodeError.schemaMismatch

/-- Models `serde_json::from_str::<WebSocketMessage>`: parse the text as JSON,
then decode the document. -/
def ws_from_str (s : String) : Except DecodeError WebSocketMessage :=
  match parseJson s with
  | none => Except.error DecodeError.malformed
  | some j => decodeWebSocketMessage j

/-- Models `serde_json::from_str::<MessageData>`, the nested codec pass used
for a `message` envelope's `data` payload. -/
def md_from_str (s : String) : Except DecodeError MessageData :=
  match parseJson s with
  | none => Except.error DecodeError.malformed
  | some j => decodeMessageData j

/-- Source: `struct UserProfile { name: String, avatar: String }`. -/
structure UserProfile where
  name : String
  avatar : String
deriving Repr, DecidableEq

/-- The avatar URL template from `Chat::update` (the `format!` call in the
`Users` arm). -/
def avatarUrl (u : String) : String :=
  ("https://avatars.dicebear.com/api/adventurer-neutral/") ++ u ++ (".svg")

/-- The protocol-relevant state of the `Chat` component: its `users` (roster)
and `messages` (log) fields. The UI/transport handles (`chat_input`, `wss`,
`_producer`) carry no protocol state and are omitted. -/
structure ChatState where
  users : List UserProfile
  messages : List MessageData
deriving Repr, DecidableEq

/-- The dispatch-on-tag step of `Chat::update` for `Msg::HandleMsg`, applied
to an already decoded `WebSocketMessage`. Returns the new state and the
`bool` returned by `update`; `none` models a Rust panic:
`msg.data.unwrap()` on `None`, or `serde_json::from_str(..).unwrap()` on a
nested decode error. -/
def dispatch (st : ChatState) (msg : WebSocketMessage) : Option (ChatState × Bool) :=
  match msg.message_type with
  | MsgTypes.Users =>
    let users_from_message := msg.data_array.getD []
    some ({ st with
            users := users_from_message.map
              (fun u => { name := u, avatar := avatarUrl u }) },
          true)
  | MsgTypes.Message =>
    match msg.data with
    | none => none
    | some d =>
      match md_from_str d with
      | Except.error _ => none
      | Except.ok message_data =>
        some ({ st with messages := st.messages ++ [message_data] }, true)
  | MsgTypes.Register => some (st, false)

/-- The `Msg::HandleMsg(s)` arm of `Chat::update` on raw inbound text `s`:
`serde_json::from_str(&s).unwrap()` followed by the dispatch. `none` models a
panic — the unwrap on a failed parse, or a panic inside the dispatch. -/
def update_handleMsg (st : ChatState) (s : String) : Option (ChatState × Bool) :=
  match ws_from_str s with
  | Except.error _ => none
  | Except.ok msg => dispatch st msg

/-- The envelope built by the `Msg::SubmitMessage` arm of `Chat::update` from
the input element's current value. -/
def submitMessage_envelope (input_value : String) : WebSocketMessage :=
  { message_type := MsgTypes.Message, data := some input_value, data_array := none }

/-- The per-message sender lookup of `Chat::view`:
`self.users.iter().find(|u| u.name == m.from).unwrap_or_else(|| &self.users[0])`.
`none` models the out-of-bounds panic of `&self.users[0]` on an empty roster. -/
def view_lookupSender (users : List UserProfile) (sender : String) : Option UserProfile :=
  match users.find? (fun u => u.name == sender) with
  | some u => some u
  | none => users.head?

/-- The sender lookups performed while rendering the message list, in log
order; `none` models a panic on any message. -/
def view_senderLookups (users : List UserProfile) : List MessageData → Option (List UserProfile)
  | [] => some []
  | m :: ms =>
    match view_lookupSender users m.«from» with
    | none => none
    | some u =>
      match view_senderLookups users ms with
      | none => none
      | some us => some (u :: us)

/-- Spec-side predicate, for comparison with the code (from the spec's words):
the outbound payload text of a submitted message is the JSON-encoded
`MessagePayload` whose `from` is the local username and whose `message` is
the input text — i.e. a text the nested codec decodes to exactly that record. -/
def specOutboundPayload (username input payload : String) : Prop :=
  md_from_str payload = Except.ok { «from» := username, message := input }

/-- Shape invariant of the spec's data model: `payload_list` present iff the
kind is `Users`, `payload_text` present iff the kind is `Register`/`Message`. -/
def validShape (m : WebSocketMessage) : Prop :=
  match m.message_type with
  | MsgTypes.Users => m.data_array.isSome = true ∧ m.data = none
  | MsgTypes.Register => m.data_array = none ∧ m.data.isSome = true
  | MsgTypes.Message => m.data_array = none ∧ m.data.isSome = true

/-- Decoding a JSON array of strings recovers the original list. -/
theorem decodeStringList_map (l : List String) :
    decodeStringList (l.map Json.str) = Except.ok l := by
  induction l with
  | nil => rfl
  | cons a as ih =>
    show (match decodeStringList (as.map Json.str) with
          | Except.ok t => Except.ok (a :: t)
          | Except.error e => Except.error e) = Except.ok (a :: as)
    rw [ih]

/-- Tag serialization round-trips. -/
theorem msgtypes_roundtrip (t : MsgTypes) :
    decodeMsgTypes (encodeMsgTypes t) = Except.ok t := by
  cases t <;> rfl

/-- Serialization of an optional string list round-trips. -/
theorem optlist_roundtrip (da : Option (List String)) :
    decodeOptStringList (some (match da with
      | none => Json.null
      | some l => Json.arr (l.map Json.str))) = Except.ok da := by
  cases da with
  | none => rfl
  | some l =>
    show (match decodeStringList (l.map Json.str) with
          | Except.ok x => Except.ok (some x)
          | Except.error e => Except.error e) = Except.ok (some l)
    rw [decodeStringList_map]

/-- Serialization of an optional string round-trips. -/
theorem optstr_roundtrip (d : Option String) :
    decodeOptString (some (match d with
      | none => Json.null
      | some s => Json.str s)) = Except.ok d := by
  cases d <;> rfl

/-- Unconditional codec round-trip for `WebSocketMessage` at the JSON
document level. -/
theorem decode_encode_ws (m : WebSocketMessage) :
    decodeWebSocketMessage (encodeWebSocketMessage m) = Except.ok m := by
  obtain ⟨t, da, d⟩ := m
  have step1 : decodeWebSocketMessage (encodeWebSocketMessage ⟨t, da, d⟩) =
      (match decodeMsgTypes (encodeMsgTypes t) with
       | Except.error e => Except.error e
       | Except.ok t' =>
         match decodeOptStringList (some (match da with
           | none => Json.null
           | some l => Json.arr (l.map Json.str))) with
         | Except.error e => Except.error e
         | Except.ok da' =>
           match decodeOptString (some (match d with
             | none => Json.null
             | some s => Json.str s)) with
           | Except.error e => Except.error e
           | Except.ok d' => Except.ok ⟨t', da', d'⟩) := rfl
  rw [step1, msgtypes_roundtrip, optlist_roundtrip, optstr_roundtrip]

/-- Rendering's sender lookups fail as a whole (a panic) as soon as one
logged message's lookup fails. -/
theorem view_senderLookups_eq_none (users : List UserProfile)
    (msgs : List MessageData) (m : MessageData) (hm : m ∈ msgs)
    (h : view_lookupSender users m.«from» = none) :
    view_senderLookups users msgs = none := by
  induction msgs with
  | nil => cases hm
  | cons a as ih =>
    show (match view_lookupSender users a.«from» with
          | none => none
          | some u =>
            match view_senderLookups users as with
            | none => none
            | some us => some (u :: us)) = none
    rcases List.mem_cons.mp hm with hma | hmem
    · rw [hma] at h
      rw [h]
    · rw [ih hmem]
      cases view_lookupSender users a.«from» <;> rfl

/-- C1: the claim says a malformed inbound text frame is discarded with the
`ChatState` unchanged and never propagates as a crash. The code instead calls
`serde_json::from_str(&s).unwrap()`, so a malformed frame panics (modelled as
`none`): at the concrete malformed input the handler aborts instead of
returning the unchanged state. -/
theorem update_malformed_text_panics :
    update_handleMsg ⟨[], []⟩ ("not json") = none ∧
    ws_from_str ("not json") = Except.error DecodeError.malformed :=
  ⟨rfl, rfl⟩

/-- C2 counterexample: for input text `hi` (local username `alice`), the
outbound envelope's `data` is the raw input `hi`, which is not a decodable
`MessagePayload` at all — so it is not the JSON-encoded
`MessagePayload{from: alice, message: hi}` the claim requires. -/
theorem submit_sends_raw_input :
    (submitMessage_envelope ("hi")).data = some ("hi") ∧
    ¬ specOutboundPayload ("alice") ("hi") ("hi") := by
  refine ⟨rfl, fun h => ?_⟩
  have h2 : (Except.error DecodeError.malformed : Except DecodeError MessageData) =
      Except.ok { «from» := ("alice"), message := ("hi") } := h
  exact Except.noConfusion h2

/-- C2 amended: the envelope built on submit has kind `Message`, no
`dataArray`, and carries the raw input text itself as `data` (no
`MessagePayload` wrapping, no username): decoding its encoding returns
exactly that. -/
theorem submit_envelope_raw_payload (input : String) :
    decodeWebSocketMessage (encodeWebSocketMessage (submitMessage_envelope input)) =
      Except.ok { message_type := MsgTypes.Message, data_array := none, data := some input } :=
  decode_encode_ws (submitMessage_envelope input)

/-- C3 counterexample: the concrete text with `messageType = "users"`,
`dataArray = null` and `data` set decodes successfully (with
`data_array = none`) — not to `DecodeError.schemaMismatch` as the claim
states. -/
theorem users_missing_dataArray_accepted :
    ws_from_str ("\x7b\"messageType\":\"users\",\"dataArray\":null,\"data\":\"x\"\x7d") =
      Except.ok { message_type := MsgTypes.Users, data_array := none, data := some ("x") } ∧
    ws_from_str ("\x7b\"messageType\":\"users\",\"dataArray\":null,\"data\":\"x\"\x7d") ≠
      Except.error DecodeError.schemaMismatch := by
  refine ⟨rfl, fun h => ?_⟩
  have h2 : (Except.ok { message_type := MsgTypes.Users, data_array := none, data := some ("x") } :
      Except DecodeError WebSocketMessage) = Except.error DecodeError.schemaMismatch := h
  exact Except.noConfusion h2

/-- C3 amended: a `users` frame with `dataArray = null` is accepted, not
rejected: `data_array` decodes to `none`, the handler treats the missing list
as empty and replaces the roster with the empty list, returning `true`
(no error, no panic, but a state change). -/
theorem users_missing_dataArray_empties_roster (st : ChatState) :
    update_handleMsg st ("\x7b\"messageType\":\"users\",\"dataArray\":null,\"data\":\"x\"\x7d") =
      some ({ st with users := [] }, true) :=
  rfl

/-- C4: the claim says a `message` envelope whose `data` is absent or not a
decodable `MessagePayload` is discarded without crashing. The code instead
panics (`msg.data.unwrap()` on `None`, and `from_str(..).unwrap()` on a
garbage payload), modelled as `none` at both concrete failing inputs. -/
theorem update_message_bad_payload_panics :
    update_handleMsg ⟨[], []⟩
        ("\x7b\"messageType\":\"message\",\"dataArray\":null,\"data\":null\x7d") = none ∧
    update_handleMsg ⟨[], []⟩
        ("\x7b\"messageType\":\"message\",\"data\":\"garbage\"\x7d") = none :=
  ⟨rfl, rfl⟩

/-- C5: when a logged message's sender matches no roster entry, the view's
lookup falls back to `&self.users[0]`: on an empty roster the rendering
lookups panic (modelled `none`), and on a non-empty roster the message is
attributed to the roster's first user. -/
theorem view_sender_fallback (users : List UserProfile) (msgs : List MessageData)
    (m : MessageData) (hm : m ∈ msgs)
    (hmiss : users.find? (fun u => u.name == m.«from») = none) :
    (users = [] → view_senderLookups users msgs = none) ∧
    (∀ u rest, users = u :: rest → view_lookupSender users m.«from» = some u) := by
  have hlook : view_lookupSender users m.«from» = users.head? := by
    show (match users.find? (fun u => u.name == m.«from») with
          | some u => some u
          | none => users.head?) = users.head?
    rw [hmiss]
  constructor
  · intro hnil
    exact view_senderLookups_eq_none users msgs m hm (by rw [hlook, hnil]; rfl)
  · intro u rest hcons
    rw [hlook, hcons]
    rfl

/-- Witness for C5 at concrete inputs: with an empty roster and one logged
message the rendering lookups panic; with roster `[bob]` the unmatched sender
`alice` is attributed to `bob`. -/
theorem view_sender_fallback_witness :
    view_senderLookups [] [⟨("alice"), ("hi")⟩] = none ∧
    view_lookupSender [⟨("bob"), ("b")⟩] ("alice") = some ⟨("bob"), ("b")⟩ :=
  ⟨(view_sender_fallback [] [⟨("alice"), ("hi")⟩] ⟨("alice"), ("hi")⟩
      (List.Mem.head _) rfl).1 rfl,
   (view_sender_fallback [⟨("bob"), ("b")⟩] [⟨("alice"), ("hi")⟩] ⟨("alice"), ("hi")⟩
      (List.Mem.head _) rfl).2 ⟨("bob"), ("b")⟩ [] rfl⟩

/-- C6: a `Users` envelope carrying list `names` replaces the roster
wholesale: exactly one profile per input name, in input order (duplicates
preserved, prior roster discarded), each with the dicebear avatar URL; the
log is untouched and the handler returns `true`. -/
theorem users_event_replaces_roster (st : ChatState) (msg : WebSocketMessage)
    (names : List String) (ht : msg.message_type = MsgTypes.Users)
    (hd : msg.data_array = some names) :
    dispatch st msg =
      some ({ users := names.map (fun u => { name := u, avatar := avatarUrl u }),
              messages := st.messages }, true) := by
  obtain ⟨t, da, d⟩ := msg
  cases ht
  cases hd
  rfl

/-- Witness for C6: roster `[old]` and a duplicated input list are replaced
by profiles for `alice`, `bob`, `alice` in order with explicit dicebear
URLs; the log survives. -/
theorem users_event_replaces_roster_witness :
    dispatch ⟨[⟨("old"), ("o")⟩], [⟨("m"), ("t")⟩]⟩
        ⟨MsgTypes.Users, some [("alice"), ("bob"), ("alice")], none⟩ =
      some (⟨[⟨("alice"), ("https://avatars.dicebear.com/api/adventurer-neutral/alice.svg")⟩,
              ⟨("bob"), ("https://avatars.dicebear.com/api/adventurer-neutral/bob.svg")⟩,
              ⟨("alice"), ("https://avatars.dicebear.com/api/adventurer-neutral/alice.svg")⟩],
             [⟨("m"), ("t")⟩]⟩, true) :=
  (users_event_replaces_roster ⟨[⟨("old"), ("o")⟩], [⟨("m"), ("t")⟩]⟩
      ⟨MsgTypes.Users, some [("alice"), ("bob"), ("alice")], none⟩
      [("alice"), ("bob"), ("alice")] rfl rfl).trans rfl

/-- C7: a `Message` envelope whose `data` decodes to
`MessagePayload{from: sender, message: body}` appends exactly that one entry
at the end of the log and leaves the roster unchanged; the handler returns
`true`. -/
theorem message_event_appends_log (st : ChatState) (msg : WebSocketMessage)
    (d sender body : String) (ht : msg.message_type = MsgTypes.Message)
    (hd : msg.data = some d)
    (hp : md_from_str d = Except.ok { «from» := sender, message := body }) :
    dispatch st msg =
      some ({ users := st.users,
              messages := st.messages ++ [{ «from» := sender, message := body }] },
            true) := by
  obtain ⟨t, da, dd⟩ := msg
  cases ht
  cases hd
  show ((match md_from_str d with
         | Except.error _ => none
         | Except.ok message_data =>
           some ((⟨st.users, st.messages ++ [message_data]⟩ : ChatState), true)) :
        Option (ChatState × Bool)) =
      some ((⟨st.users, st.messages ++ [(⟨sender, body⟩ : MessageData)]⟩ : ChatState), true)
  rw [hp]

/-- Witness for C7: with payload `{"from":"alice","message":"hi"}` the entry
`{from: alice, message: hi}` is appended after the existing log entry and
the roster survives unchanged. -/
theorem message_event_appends_log_witness :
    dispatch ⟨[⟨("u"), ("a")⟩], [⟨("x"), ("y")⟩]⟩
        ⟨MsgTypes.Message, none, some ("\x7b\"from\":\"alice\",\"message\":\"hi\"\x7d")⟩ =
      some (⟨[⟨("u"), ("a")⟩], [⟨("x"), ("y")⟩, ⟨("alice"), ("hi")⟩]⟩, true) :=
  (message_event_appends_log ⟨[⟨("u"), ("a")⟩], [⟨("x"), ("y")⟩]⟩
      ⟨MsgTypes.Message, none, some ("\x7b\"from\":\"alice\",\"message\":\"hi\"\x7d")⟩
      ("\x7b\"from\":\"alice\",\"message\":\"hi\"\x7d") ("alice") ("hi")
      rfl rfl rfl).trans rfl

/-- C8: an inbound `Register` envelope is a no-op: the state is returned
unchanged and the handler's state-changed flag is `false`. -/
theorem register_event_noop (st : ChatState) (msg : WebSocketMessage)
    (ht : msg.message_type = MsgTypes.Register) :
    dispatch st msg = some (st, false) := by
  obtain ⟨t, da, d⟩ := msg
  cases ht
  rfl

/-- Witness for C8 at a concrete state and envelope. -/
theorem register_event_noop_witness :
    dispatch ⟨[⟨("u"), ("a")⟩], [⟨("x"), ("y")⟩]⟩
        ⟨MsgTypes.Register, none, some ("bob")⟩ =
      some (⟨[⟨("u"), ("a")⟩], [⟨("x"), ("y")⟩]⟩, false) :=
  register_event_noop ⟨[⟨("u"), ("a")⟩], [⟨("x"), ("y")⟩]⟩
    ⟨MsgTypes.Register, none, some ("bob")⟩ rfl

/-- C9: for every structurally valid envelope (payload shape matching its
kind), decoding the encoding yields the envelope back, at the JSON document
level of the serde codec. -/
theorem envelope_roundtrip (e : WebSocketMessage) (_h : validShape e) :
    decodeWebSocketMessage (encodeWebSocketMessage e) = Except.ok e :=
  decode_encode_ws e

/-- Witness for C9 at a concrete valid `Users` envelope. -/
theorem envelope_roundtrip_witness :
    validShape ⟨MsgTypes.Users, some [("alice"), ("bob")], none⟩ ∧
    decodeWebSocketMessage
        (encodeWebSocketMessage ⟨MsgTypes.Users, some [("alice"), ("bob")], none⟩) =
      Except.ok ⟨MsgTypes.Users, some [("alice"), ("bob")], none⟩ :=
  ⟨⟨rfl, rfl⟩,
   envelope_roundtrip ⟨MsgTypes.Users, some [("alice"), ("bob")], none⟩ ⟨rfl, rfl⟩⟩

/-- C10: a decoded `Users` envelope with `data_array = none` is handled as an
empty list — the roster is replaced wholesale by the empty sequence and a
state change is signalled — and texts with `dataArray` absent or `null`
decode without error to such an envelope. -/
theorem users_none_dataArray_empty_roster :
    (∀ (st : ChatState) (d : Option String),
      dispatch st ⟨MsgTypes.Users, none, d⟩ = some ({ st with users := [] }, true)) ∧
    ws_from_str ("\x7b\"messageType\":\"users\",\"data\":\"x\"\x7d") =
      Except.ok ⟨MsgTypes.Users, none, some ("x")⟩ ∧
    ws_from_str ("\x7b\"messageType\":\"users\",\"dataArray\":null,\"data\":null\x7d") =
      Except.ok ⟨MsgTypes.Users, none, none⟩ :=
  ⟨fun _ _ => rfl, rfl, rfl⟩

end YewChat
